import Mathlib

/-
Verification development for the authentication-and-permission core of the
Volga repository (FastAPI backend).  The Python sources under `app/auth`,
`app/database` and `app/api` are shallowly embedded below:

  * time is modelled as `Nat` seconds; each operation receives the single
    instant `now` at which it runs (the Python code calls
    `datetime.now(timezone.utc)` several times inside one request; those calls
    are microseconds apart and are modelled by one instant),
  * the relational store is a `Sys` record of row lists; `commit` is modelled
    by returning the updated record,
  * bcrypt digests are modelled by a structure remembering the salt and the
    hashed password, with `checkpw` comparing the remembered password; the
    salt argument stands for `bcrypt.gensalt()`'s randomness,
  * `secrets.token_urlsafe` randomness is passed in as an explicit argument,
  * Python dynamic typing matters in one place: `app/auth/jwt.py`'s
    `create_refresh_token` returns a `(token, prefix)` 2-tuple which
    `app/auth/service.py` passes directly to `hash_password`; values that can
    reach `hash_password` are therefore modelled by `PyVal` and passing the
    tuple yields the `AttributeError` the interpreter raises on
    `tuple.encode`.
-/

deriving instance DecidableEq for Except

namespace Volga

/-- Exceptions raised by the embedded code: the domain errors of
`app/auth/exceptions.py` plus the Python runtime errors that the source can
raise (`ValueError`, `AttributeError` on `tuple.encode`, `TypeError` on an
unexpected keyword argument, SQLAlchemy's `NoResultFound`). -/
inductive Exn where
  | userNotFound
  | userAlreadyExists
  | invalidCredentials
  | userInactive
  | accountLocked (lockedUntil : Nat)
  | tokenExpired
  | invalidToken (msg : String)
  | refreshTokenRevoked
  | permissionDenied
  | invalidInput (msg : String)
  | valueError (msg : String)
  | attributeError
  | typeError
  | noResult
  | httpUnauthorized (msg : String)
deriving DecidableEq, Repr

/-- Python values that can reach `hash_password` in `app/auth/service.py`:
either a `str`, or the `(token, prefix)` 2-tuple returned by
`create_refresh_token`. -/
inductive PyVal where
  | str (s : String)
  | strPair (a b : String)
deriving DecidableEq, Repr

/-- Abstraction of a bcrypt digest (`bcrypt.hashpw(password, gensalt())`):
the digest determines the salt and, for the purposes of `bcrypt.checkpw`,
the password it was derived from.  Distinct salts give distinct digests of
the same password, exactly as in bcrypt. -/
structure BHash where
  salt : Nat
  pw : String
deriving DecidableEq, Repr

/-- Embeds `bcrypt.checkpw` : a digest verifies exactly the password it was
derived from. -/
def bcrypt_checkpw (password : String) (h : BHash) : Bool :=
  h.pw == password

/-- Embeds `app/auth/password.py hash_password`.  The salt argument stands
for `bcrypt.gensalt()`.  On the empty string the source raises `ValueError`;
on a tuple (see module comment) Python raises `AttributeError` at
`password.encode("utf-8")`. -/
def hash_password (salt : Nat) (password : PyVal) : Except Exn BHash :=
  match password with
  | .str s =>
    if s = "" then .error (.valueError "Password cannot be empty")
    else .ok { salt := salt, pw := s }
  | .strPair _ _ => .error .attributeError

/-- Embeds `app/auth/password.py verify_password`: false on empty input,
otherwise `bcrypt.checkpw`. -/
def verify_password (plain : String) (hashed : BHash) : Bool :=
  if plain = "" then false else bcrypt_checkpw plain hashed

/-- Python `str.lower`, on the character list (ASCII case mapping, which
agrees with Python on the inputs considered here). -/
def pyLower (s : String) : String := ⟨s.data.map Char.toLower⟩

/-- Python `any(p(c) for c in s)`, on the character list. -/
def pyAny (s : String) (p : Char → Bool) : Bool := s.data.any p

/-- Python `c in s` for a character, on the character list. -/
def pyContainsChar (s : String) (c : Char) : Bool := s.data.contains c

/-- Python `s[:n]`, on the character list. -/
def pyTake (s : String) (n : Nat) : String := ⟨s.data.take n⟩

/-- The special-character set of `check_password_strength` (braces written as
escapes). -/
def special_chars : String := "!@#$%^&*()_+-=[]\x7b\x7d|;:,.<>?"

/-- Embeds `app/auth/password.py check_password_strength`.  Character class
tests (`isupper` etc.) are modelled on the ASCII range, which agrees with
Python on the inputs considered here. -/
def check_password_strength (password : String) : Bool × Option String :=
  if password = "" then (false, some "Password cannot be empty")
  else if password.length < 8 then
    (false, some "Password must be at least 8 characters long")
  else if 128 < password.length then
    (false, some "Password must be less than 128 characters")
  else if !(pyAny password Char.isUpper) then
    (false, some "Password must contain at least one uppercase letter")
  else if !(pyAny password Char.isLower) then
    (false, some "Password must contain at least one lowercase letter")
  else if !(pyAny password Char.isDigit) then
    (false, some "Password must contain at least one digit")
  else if !(pyAny password (fun c => pyContainsChar special_chars c)) then
    (false, some "Password must contain at least one special character")
  else (true, none)

/-- Embeds `app/auth/token_utils.py create_token_with_prefix` : the raw
random token (the `secrets.token_urlsafe` draw is the explicit argument)
together with its first 8 characters. -/
def create_token_with_prefix8 (rawDraw : String) : String × String :=
  (rawDraw, pyTake rawDraw 8)

/-- Embeds `app/auth/jwt.py create_refresh_token`, which just forwards to
`create_token_with_prefix` and therefore returns a `(token, prefix)` pair. -/
def create_refresh_token (rawDraw : String) : String × String :=
  create_token_with_prefix8 rawDraw

/-- Config default `settings.JWT_ACCESS_TOKEN_EXPIRE_MINUTES`. -/
def JWT_ACCESS_TOKEN_EXPIRE_MINUTES : Nat := 30

/-- Config default `settings.JWT_SECRET_KEY`. -/
def JWT_SECRET_KEY : String := "your-256-bit-secret-key-change-in-production"

/-- The claim set of an access token (`payload` dict in `create_access_token`);
`typ` embeds the `"type"` claim. -/
structure AccessClaims where
  sub : String
  email : String
  iat : Nat
  exp : Nat
  jti : String
  typ : String
deriving DecidableEq, Repr

/-- A JWT string is either a token correctly signed (HS256) with some secret
and carrying claims, or a malformed string. -/
inductive Jwt where
  | signed (secret : String) (claims : AccessClaims)
  | malformed (raw : String)
deriving DecidableEq, Repr

/-- Embeds `app/auth/jwt.py create_access_token` (without extra claims; the
`jti` argument stands for the fresh `uuid4()`). -/
def create_access_token (user_id email : String) (now : Nat) (jti : String) : Jwt :=
  .signed JWT_SECRET_KEY
    { sub := user_id, email := email, iat := now,
      exp := now + JWT_ACCESS_TOKEN_EXPIRE_MINUTES * 60, jti := jti, typ := "access" }

/-- Outcomes of `jwt.decode` as used in `verify_token`: PyJWT raises
`ExpiredSignatureError` when `exp <= now`, and a generic `PyJWTError` on a
signature or structure failure. -/
inductive JwtDecodeErr where
  | expiredSignature
  | pyJwtError
deriving DecidableEq, Repr

/-- Embeds `jwt.decode(token, settings.JWT_SECRET_KEY, algorithms=[HS256])`. -/
def jwt_decode (token : Jwt) (now : Nat) : Except JwtDecodeErr AccessClaims :=
  match token with
  | .malformed _ => .error .pyJwtError
  | .signed secret claims =>
    if secret ≠ JWT_SECRET_KEY then .error .pyJwtError
    else if claims.exp ≤ now then .error .expiredSignature
    else .ok claims

/-- The cached user snapshot written by `AuthCache.set_user`
(`app/auth/cache.py` lines 97-108): the user's fields without the password
hash. -/
structure CachedUser where
  id : Nat
  email : String
  isActive : Bool
  isVerified : Bool
  emailVerifiedAt : Option Nat
  lastLoginAt : Option Nat
  failedLoginAttempts : Nat
  lockedUntil : Option Nat
deriving DecidableEq, Repr

/-- The Redis keyspace of `app/auth/cache.py CacheKeys`.  The literal key
patterns (`auth:user:...`, `auth:permissions:...:...`, `auth:roles:...:...`,
`auth:token:blacklist:...`, `auth:refresh:...`) are injective on their
identifiers and pairwise disjoint, which the constructors model. -/
inductive CacheKey where
  | user (userId : Nat)
  | permissions (userId agencyId : Nat)
  | roles (userId agencyId : Nat)
  | tokenBlacklist (jti : String)
  | refreshTok (tokenHash : BHash)
deriving DecidableEq, Repr

/-- Values stored in the cache: user snapshots, permission-name sets, and
the marker dicts stored for blacklist / refresh-token entries (their content
is never read by the sources, only key existence is). -/
inductive CacheVal where
  | userSnap (u : CachedUser)
  | permNames (names : List String)
  | marker
deriving DecidableEq, Repr

/-- State of the `RedisCache` client of `app/database/redis.py`:
`connected` is the `_connected` flag; `failing` models every Redis command
raising (network outage), which each method there catches. -/
structure Cache where
  connected : Bool
  failing : Bool
  entries : List (CacheKey × CacheVal)
deriving DecidableEq, Repr

/-- Embeds `RedisCache.get`: `None` when not connected, on a command error,
or on a missing key. -/
def redis_get (c : Cache) (k : CacheKey) : Option CacheVal :=
  if !c.connected || c.failing then none
  else (c.entries.find? (fun e => e.1 == k)).map (fun e => e.2)

/-- Embeds `RedisCache.set`: no effect (returning `False`) when not
connected or on error, otherwise upserts the key. -/
def redis_set (c : Cache) (k : CacheKey) (v : CacheVal) : Cache :=
  if !c.connected || c.failing then c
  else { c with entries := (k, v) :: c.entries.filter (fun e => e.1 != k) }

/-- Embeds `RedisCache.delete`: no effect when not connected or on error. -/
def redis_delete (c : Cache) (k : CacheKey) : Cache :=
  if !c.connected || c.failing then c
  else { c with entries := c.entries.filter (fun e => e.1 != k) }

/-- Embeds `RedisCache.exists` (`app/database/redis.py` lines 191-209):
`False` when not connected, `False` when the lookup errors (the `except`
branch), otherwise key existence. -/
def redis_exists (c : Cache) (k : CacheKey) : Bool :=
  if !c.connected || c.failing then false
  else c.entries.any (fun e => e.1 == k)

/-- The cache client is available when it is connected and commands are not
erroring. -/
def Cache.available (c : Cache) : Bool :=
  c.connected && !c.failing

/-- Embeds `AuthCache.is_token_blacklisted`
(`app/auth/cache.py` lines 268-280). -/
def is_token_blacklisted (c : Cache) (jti : String) : Bool :=
  redis_exists c (.tokenBlacklist jti)

/-- Embeds `AuthCache.blacklist_token` (`app/auth/cache.py` lines 282-297).
No operation of the repository ever calls it (see claim C10). -/
def blacklist_token (c : Cache) (jti : String) : Cache :=
  redis_set c (.tokenBlacklist jti) .marker

/-- Embeds `AuthCache.set_user`. -/
def AuthCache_set_user (c : Cache) (u : CachedUser) : Cache :=
  redis_set c (.user u.id) (.userSnap u)

/-- Embeds `AuthCache.invalidate_user`. -/
def AuthCache_invalidate_user (c : Cache) (userId : Nat) : Cache :=
  redis_delete c (.user userId)

/-- Embeds `AuthCache.invalidate_refresh_token`. -/
def AuthCache_invalidate_refresh_token (c : Cache) (tokenHash : BHash) : Cache :=
  redis_delete c (.refreshTok tokenHash)

/-- Embeds `app/auth/jwt.py verify_token` (lines 67-100): decode, then the
blacklist check (`if jti and await AuthCache.is_token_blacklisted(jti)`),
with `ExpiredSignatureError` mapped to `TokenExpiredError` and `PyJWTError`
to `InvalidTokenError`. -/
def verify_token (cache : Cache) (token : Jwt) (now : Nat) : Except Exn AccessClaims :=
  match jwt_decode token now with
  | .error .expiredSignature => .error .tokenExpired
  | .error .pyJwtError => .error (.invalidToken "Invalid token")
  | .ok payload =>
    if payload.jti ≠ "" && is_token_blacklisted cache payload.jti then
      .error (.invalidToken "Token has been revoked")
    else .ok payload

/-- Row of `auth_users` (`app/database/models/auth_users.py`). -/
structure UserRec where
  id : Nat
  email : String
  passwordHash : BHash
  isActive : Bool
  isVerified : Bool
  emailVerifiedAt : Option Nat
  lastLoginAt : Option Nat
  failedLoginAttempts : Nat
  lockedUntil : Option Nat
deriving DecidableEq, Repr

/-- The cached snapshot of a user (the dict built by `AuthCache.set_user`). -/
def UserRec.snapshot (u : UserRec) : CachedUser :=
  { id := u.id, email := u.email, isActive := u.isActive, isVerified := u.isVerified,
    emailVerifiedAt := u.emailVerifiedAt, lastLoginAt := u.lastLoginAt,
    failedLoginAttempts := u.failedLoginAttempts, lockedUntil := u.lockedUntil }

/-- Row of `refresh_tokens` (`app/database/models/refresh_tokens.py`);
`tokenPrefix8` embeds the nullable `token_prefix` column. -/
structure RefreshTokenRec where
  id : Nat
  userId : Nat
  tokenHash : BHash
  tokenPrefix8 : Option String
  expiresAt : Nat
  revokedAt : Option Nat
  deviceInfo : Option String
  isRevoked : Bool
deriving DecidableEq, Repr

/-- Row of `password_reset_tokens`. -/
structure ResetTokenRec where
  id : Nat
  userId : Nat
  tokenHash : BHash
  tokenPrefix8 : Option String
  expiresAt : Nat
  usedAt : Option Nat
deriving DecidableEq, Repr

/-- Row of `email_verification_tokens`. -/
structure VerifyTokenRec where
  id : Nat
  userId : Nat
  tokenHash : BHash
  expiresAt : Nat
  verifiedAt : Option Nat
deriving DecidableEq, Repr

/-- Row of `roles`. -/
structure RoleRec where
  id : Nat
  name : String
  description : Option String
  isSystemRole : Bool
deriving DecidableEq, Repr

/-- Row of `permissions`. -/
structure PermissionRec where
  id : Nat
  name : String
  resource : String
  action : String
deriving DecidableEq, Repr

/-- Row of `role_permissions`. -/
structure RolePermissionRec where
  roleId : Nat
  permissionId : Nat
deriving DecidableEq, Repr

/-- Row of `user_roles` (`UserRole`, the tenant-scoped role assignment). -/
structure UserRoleRec where
  userId : Nat
  roleId : Nat
  agencyId : Nat
  grantedBy : Nat
  grantedAt : Nat
  expiresAt : Option Nat
deriving DecidableEq, Repr

/-- The relational store (the tables the auth/permission core touches;
`agencies` keeps only the ids, the sole attribute the core consults) plus
the Redis cache. -/
structure Sys where
  users : List UserRec
  refreshTokens : List RefreshTokenRec
  resetTokens : List ResetTokenRec
  verifyTokens : List VerifyTokenRec
  roles : List RoleRec
  permissions : List PermissionRec
  rolePermissions : List RolePermissionRec
  userRoles : List UserRoleRec
  agencies : List Nat
  cache : Cache
deriving DecidableEq, Repr

/-- ORM update of a user row (commit of in-session mutations, keyed by the
primary key). -/
def updateUser (s : Sys) (u : UserRec) : Sys :=
  { s with users := s.users.map (fun v => if v.id == u.id then u else v) }

/-- `AuthService.MAX_FAILED_ATTEMPTS`. -/
def MAX_FAILED_ATTEMPTS : Nat := 5

/-- `AuthService.LOCKOUT_DURATION_MINUTES`. -/
def LOCKOUT_DURATION_MINUTES : Nat := 30

/-- `AuthService.REFRESH_TOKEN_EXPIRE_DAYS`. -/
def REFRESH_TOKEN_EXPIRE_DAYS : Nat := 30

/-- `AuthService.EMAIL_VERIFICATION_EXPIRE_HOURS`. -/
def EMAIL_VERIFICATION_EXPIRE_HOURS : Nat := 24

/-- `AuthService.PASSWORD_RESET_EXPIRE_HOURS`. -/
def PASSWORD_RESET_EXPIRE_HOURS : Nat := 1

/-- The lockout test of `AuthService.login` line 162:
`user.locked_until and user.locked_until > datetime.now(timezone.utc)`. -/
def isLockedAt (u : UserRec) (now : Nat) : Bool :=
  match u.lockedUntil with
  | some t => decide (now < t)
  | none => false

/-- Embeds `AuthService.register` (`app/auth/service.py` lines 56-127).
`newUserId` and `newRtId` stand for the fresh primary keys, `pwSalt` and
`tokSalt` for the two `bcrypt.gensalt()` draws, `jti` for the `uuid4()` and
`rawTok` for the `secrets.token_urlsafe` draw.  The final arm after the
second `hash_password` is dead in the source as well: `hash_password`
receives the `(token, prefix)` tuple and raises `AttributeError` with the
user row already committed. -/
def register (s : Sys) (email password : String) (now : Nat)
    (newUserId pwSalt : Nat) (jti rawTok : String) (tokSalt newRtId : Nat) :
    Sys × Except Exn (UserRec × Jwt × (String × String)) :=
  match s.users.find? (fun u => u.email == pyLower email) with
  | some _ => (s, .error .userAlreadyExists)
  | none =>
    let strength := check_password_strength password
    if !strength.1 then
      (s, .error (.valueError (strength.2.getD "Password does not meet requirements")))
    else
      match hash_password pwSalt (.str password) with
      | .error e => (s, .error e)
      | .ok pwHash =>
        let user : UserRec :=
          { id := newUserId, email := pyLower email, passwordHash := pwHash,
            isActive := true, isVerified := false, emailVerifiedAt := none,
            lastLoginAt := none, failedLoginAttempts := 0, lockedUntil := none }
        let s1 : Sys := { s with users := s.users ++ [user] }
        let s2 : Sys := { s1 with cache := AuthCache_set_user s1.cache user.snapshot }
        let accessToken := create_access_token (toString user.id) user.email now jti
        let plain_refresh_token := create_refresh_token rawTok
        match hash_password tokSalt (.strPair plain_refresh_token.1 plain_refresh_token.2) with
        | .error e => (s2, .error e)
        | .ok rtHash =>
          let rt : RefreshTokenRec :=
            { id := newRtId, userId := user.id, tokenHash := rtHash, tokenPrefix8 := none,
              expiresAt := now + REFRESH_TOKEN_EXPIRE_DAYS * 86400,
              revokedAt := none, deviceInfo := none, isRevoked := false }
          ({ s2 with refreshTokens := s2.refreshTokens ++ [rt] },
           .ok (user, accessToken, plain_refresh_token))

/-- Embeds `AuthService.login` (`app/auth/service.py` lines 129-215).  As in
`register`, the refresh-token `hash_password` call receives the tuple and
raises `AttributeError`; the user-row commit of line 190 (reset counters,
`last_login_at`) and the cache refresh have already happened by then. -/
def login (s : Sys) (email password : String) (now : Nat)
    (jti rawTok : String) (tokSalt : Nat) (deviceInfo : Option String) (newRtId : Nat) :
    Sys × Except Exn (UserRec × Jwt × (String × String)) :=
  match s.users.find? (fun u => u.email == pyLower email) with
  | none => (s, .error .userNotFound)
  | some user =>
    if isLockedAt user now then
      (s, .error (.accountLocked (user.lockedUntil.getD 0)))
    else if !user.isActive then (s, .error .userInactive)
    else if !(verify_password password user.passwordHash) then
      let failed := user.failedLoginAttempts + 1
      let user2 : UserRec :=
        { user with
          failedLoginAttempts := failed
          lockedUntil :=
            if MAX_FAILED_ATTEMPTS ≤ failed then
              some (now + LOCKOUT_DURATION_MINUTES * 60)
            else user.lockedUntil }
      (updateUser s user2, .error .invalidCredentials)
    else
      let user2 : UserRec :=
        { user with failedLoginAttempts := 0, lockedUntil := none, lastLoginAt := some now }
      let s1 := updateUser s user2
      let s2 : Sys :=
        { s1 with cache :=
            AuthCache_set_user (AuthCache_invalidate_user s1.cache user2.id) user2.snapshot }
      let accessToken := create_access_token (toString user2.id) user2.email now jti
      let plain_refresh_token := create_refresh_token rawTok
      match hash_password tokSalt (.strPair plain_refresh_token.1 plain_refresh_token.2) with
      | .error e => (s2, .error e)
      | .ok rtHash =>
        let rt : RefreshTokenRec :=
          { id := newRtId, userId := user2.id, tokenHash := rtHash, tokenPrefix8 := none,
            expiresAt := now + REFRESH_TOKEN_EXPIRE_DAYS * 86400,
            revokedAt := none, deviceInfo := deviceInfo, isRevoked := false }
        ({ s2 with refreshTokens := s2.refreshTokens ++ [rt] },
         .ok (user2, accessToken, plain_refresh_token))

/-- Embeds `AuthService.refresh_access_token` (`app/auth/service.py` lines
217-272).  The candidate query keeps only rows with
`is_revoked == False ∧ expires_at > now` and the hash comparison runs over
those candidates only; the two re-checks after the match are kept verbatim
from the source. -/
def refresh_access_token (s : Sys) (refreshToken : String) (now : Nat) (jti : String) :
    Except Exn Jwt :=
  let all_tokens := s.refreshTokens.filter
    (fun t => !t.isRevoked && decide (now < t.expiresAt))
  match all_tokens.find? (fun t => verify_password refreshToken t.tokenHash) with
  | none => .error (.invalidToken "Invalid refresh token")
  | some matching_token =>
    if matching_token.isRevoked || !(matching_token.revokedAt == none) then
      .error .refreshTokenRevoked
    else if matching_token.expiresAt < now then .error .tokenExpired
    else
      match s.users.find? (fun u => u.id == matching_token.userId) with
      | none => .error .noResult
      | some user =>
        if !user.isActive then .error .userInactive
        else .ok (create_access_token (toString user.id) user.email now jti)

/-- Embeds `AuthService.logout` (`app/auth/service.py` lines 274-297):
revokes the first valid candidate whose hash matches; silently succeeds
otherwise. -/
def logout (s : Sys) (refreshToken : String) (now : Nat) : Sys :=
  let all_tokens := s.refreshTokens.filter
    (fun t => !t.isRevoked && decide (now < t.expiresAt))
  match all_tokens.find? (fun t => verify_password refreshToken t.tokenHash) with
  | none => s
  | some matching_token =>
    { s with refreshTokens := s.refreshTokens.map (fun t =>
        if t.id == matching_token.id then
          { t with isRevoked := true, revokedAt := some now }
        else t) }

/-- Embeds `AuthService.logout_all_devices` (`app/auth/service.py` lines
299-324): revokes every non-revoked token of the user, invalidates each
one's cache entry and the user's cache entry. -/
def logout_all_devices (s : Sys) (userId : Nat) (now : Nat) : Sys :=
  let victims := s.refreshTokens.filter (fun t => t.userId == userId && !t.isRevoked)
  let s1 : Sys :=
    { s with refreshTokens := s.refreshTokens.map (fun t =>
        if t.userId == userId && !t.isRevoked then
          { t with isRevoked := true, revokedAt := some now }
        else t) }
  let c1 := victims.foldl (fun c t => AuthCache_invalidate_refresh_token c t.tokenHash) s1.cache
  { s1 with cache := AuthCache_invalidate_user c1 userId }

/-- Embeds `AuthService.request_password_reset` (`app/auth/service.py` lines
326-365).  As in `register`, `create_refresh_token` returns a tuple which
`hash_password` rejects with `AttributeError`, so the arm that would store
the reset record is dead in the source as well. -/
def request_password_reset (s : Sys) (email : String) (now : Nat)
    (rawTok : String) (tokSalt newId : Nat) :
    Sys × Except Exn (String × String) :=
  match s.users.find? (fun u => u.email == pyLower email) with
  | none => (s, .error .userNotFound)
  | some user =>
    let reset_token := create_refresh_token rawTok
    match hash_password tokSalt (.strPair reset_token.1 reset_token.2) with
    | .error e => (s, .error e)
    | .ok h =>
      let rrec : ResetTokenRec :=
        { id := newId, userId := user.id, tokenHash := h, tokenPrefix8 := none,
          expiresAt := now + PASSWORD_RESET_EXPIRE_HOURS * 3600, usedAt := none }
      ({ s with resetTokens := s.resetTokens ++ [rrec] }, .ok reset_token)

/-- The user-row mutation of `AuthService.reset_password` lines 415-418:
new password hash, counter cleared, lockout cleared. -/
def resetUser (u : UserRec) (newHash : BHash) : UserRec :=
  { u with passwordHash := newHash, failedLoginAttempts := 0, lockedUntil := none }

/-- Embeds `AuthService.reset_password` (`app/auth/service.py` lines
367-429): strength check, candidate query over unconsumed unexpired reset
rows, hash match, password update with counter/lockout clear, consumption
marker, then `logout_all_devices`. -/
def reset_password (s : Sys) (resetToken newPassword : String) (now pwSalt : Nat) :
    Sys × Except Exn UserRec :=
  let strength := check_password_strength newPassword
  if !strength.1 then
    (s, .error (.valueError (strength.2.getD "Password does not meet requirements")))
  else
    let all_tokens := s.resetTokens.filter
      (fun t => t.usedAt == none && decide (now < t.expiresAt))
    match all_tokens.find? (fun t => verify_password resetToken t.tokenHash) with
    | none => (s, .error (.invalidToken "Invalid or expired password reset token"))
    | some matching_token =>
      match s.users.find? (fun u => u.id == matching_token.userId) with
      | none => (s, .error .noResult)
      | some user =>
        match hash_password pwSalt (.str newPassword) with
        | .error e => (s, .error e)
        | .ok newHash =>
          let user2 : UserRec := resetUser user newHash
          let s1 := updateUser s user2
          let s2 : Sys :=
            { s1 with resetTokens := s1.resetTokens.map (fun t =>
                if t.id == matching_token.id then { t with usedAt := some now } else t) }
          let s3 := logout_all_devices s2 user.id now
          (s3, .ok user2)

/-- Embeds `AuthService.request_email_verification` (`app/auth/service.py`
lines 431-468); the tuple reaches `hash_password` here too. -/
def request_email_verification (s : Sys) (userId : Nat) (now : Nat)
    (rawTok : String) (tokSalt newId : Nat) :
    Sys × Except Exn (String × String) :=
  match s.users.find? (fun u => u.id == userId) with
  | none => (s, .error .userNotFound)
  | some user =>
    if user.isVerified then (s, .error (.valueError "Email is already verified"))
    else
      let verification_token := create_refresh_token rawTok
      match hash_password tokSalt (.strPair verification_token.1 verification_token.2) with
      | .error e => (s, .error e)
      | .ok h =>
        let vrec : VerifyTokenRec :=
          { id := newId, userId := user.id, tokenHash := h,
            expiresAt := now + EMAIL_VERIFICATION_EXPIRE_HOURS * 3600, verifiedAt := none }
        ({ s with verifyTokens := s.verifyTokens ++ [vrec] }, .ok verification_token)

/-- Embeds `AuthService.verify_email` (`app/auth/service.py` lines 470-521):
candidate query over unconsumed unexpired verification rows, hash match,
then the user is marked verified, the token consumed and the user cache
refreshed. -/
def verify_email (s : Sys) (verificationToken : String) (now : Nat) :
    Sys × Except Exn UserRec :=
  let all_tokens := s.verifyTokens.filter
    (fun t => t.verifiedAt == none && decide (now < t.expiresAt))
  match all_tokens.find? (fun t => verify_password verificationToken t.tokenHash) with
  | none => (s, .error (.invalidToken "Invalid or expired email verification token"))
  | some matching_token =>
    match s.users.find? (fun u => u.id == matching_token.userId) with
    | none => (s, .error .noResult)
    | some user =>
      let user2 : UserRec := { user with isVerified := true, emailVerifiedAt := some now }
      let s1 := updateUser s user2
      let s2 : Sys :=
        { s1 with verifyTokens := s1.verifyTokens.map (fun t =>
            if t.id == matching_token.id then { t with verifiedAt := some now } else t) }
      let s3 : Sys :=
        { s2 with cache :=
            AuthCache_set_user (AuthCache_invalidate_user s2.cache user2.id) user2.snapshot }
      (s3, .ok user2)

/-- Embeds the `logout` HTTP endpoint (`app/api/endpoints/v1/auth/logout.py`
lines 24-67).  The endpoint calls
`auth_service.logout(refresh_token=..., access_token_jti=...)` but
`AuthService.logout` accepts only `refresh_token`, so the call raises
`TypeError`, which the surrounding `except Exception` swallows into the
success message. -/
def logout_accepted_kwargs : List String := ["refresh_token"]

/-- The keyword arguments the logout endpoint passes to `AuthService.logout`. -/
def logout_endpoint_kwargs : List String := ["refresh_token", "access_token_jti"]

/-- Python call dispatch for `AuthService.logout`: a keyword argument not in
the signature raises `TypeError` before the body runs. -/
def call_logout_method (kwargs : List String) (s : Sys) (refreshToken : String)
    (now : Nat) : Except Exn Sys :=
  if kwargs.all (fun k => logout_accepted_kwargs.contains k) then
    .ok (logout s refreshToken now)
  else .error .typeError

/-- The logout endpoint body: try the service call, return the success
message either way. -/
def logout_endpoint (s : Sys) (refreshToken : String) (now : Nat) : Sys × String :=
  match call_logout_method logout_endpoint_kwargs s refreshToken now with
  | .ok s2 => (s2, "Logged out successfully")
  | .error _ => (s, "Logged out successfully")

/-- The expiry condition of the RBAC queries:
`expires_at IS NULL OR expires_at > now`. -/
def assignmentValidAt (ur : UserRoleRec) (now : Nat) : Bool :=
  match ur.expiresAt with
  | none => true
  | some e => decide (now < e)

/-- Embeds `PermissionService.get_user_permissions` (`app/auth/rbac.py`
lines 99-148): the four-way join `permissions ⋈ role_permissions ⋈ roles ⋈
user_roles` filtered to the (user, agency) pair, with the expiry filter
unless `include_expired`; `set(...)` is modelled by `dedup`. -/
def get_user_permissions (s : Sys) (userId agencyId : Nat)
    (includeExpired : Bool) (now : Nat) : List String :=
  ((s.permissions.filter (fun p =>
      s.rolePermissions.any (fun rp =>
        rp.permissionId == p.id &&
        s.roles.any (fun r =>
          r.id == rp.roleId &&
          s.userRoles.any (fun ur =>
            ur.roleId == r.id && ur.userId == userId && ur.agencyId == agencyId &&
            (includeExpired || assignmentValidAt ur now)))))).map
    (fun p => p.name)).dedup

/-- Embeds `PermissionService.assign_role` (`app/auth/rbac.py` lines
237-317): existence checks for user, role and agency, idempotent return of
a still-valid duplicate assignment, otherwise a new row. -/
def assign_role (s : Sys) (userId roleId agencyId grantedBy : Nat)
    (expiresAt : Option Nat) (now : Nat) :
    Sys × Except Exn UserRoleRec :=
  if !(s.users.any (fun u => u.id == userId)) then
    (s, .error (.invalidInput "User not found"))
  else if !(s.roles.any (fun r => r.id == roleId)) then
    (s, .error (.invalidInput "Role not found"))
  else if !(s.agencies.contains agencyId) then
    (s, .error (.invalidInput "Agency not found"))
  else
    match s.userRoles.find? (fun ur =>
        ur.userId == userId && ur.roleId == roleId && ur.agencyId == agencyId &&
        assignmentValidAt ur now) with
    | some existing => (s, .ok existing)
    | none =>
      let a : UserRoleRec :=
        { userId := userId, roleId := roleId, agencyId := agencyId,
          grantedBy := grantedBy, grantedAt := now, expiresAt := expiresAt }
      ({ s with userRoles := s.userRoles ++ [a] }, .ok a)

/-- Embeds `PermissionService.revoke_role` (`app/auth/rbac.py` lines
319-354): deletes the matching assignment rows, reporting whether any row
was deleted. -/
def revoke_role (s : Sys) (userId roleId agencyId : Nat) : Sys × Bool :=
  let remaining := s.userRoles.filter (fun ur =>
    !(ur.userId == userId && ur.roleId == roleId && ur.agencyId == agencyId))
  ({ s with userRoles := remaining }, decide (remaining.length < s.userRoles.length))

/-- Embeds `PermissionService.revoke_all_roles`. -/
def revoke_all_roles (s : Sys) (userId agencyId : Nat) : Sys × Nat :=
  let remaining := s.userRoles.filter (fun ur =>
    !(ur.userId == userId && ur.agencyId == agencyId))
  ({ s with userRoles := remaining }, s.userRoles.length - remaining.length)

/-- Embeds `PermissionService.assign_permission_to_role` (`app/auth/rbac.py`
lines 616-672). -/
def assign_permission_to_role (s : Sys) (roleId permissionId : Nat) :
    Sys × Except Exn RolePermissionRec :=
  if !(s.roles.any (fun r => r.id == roleId)) then
    (s, .error (.invalidInput "Role not found"))
  else if !(s.permissions.any (fun p => p.id == permissionId)) then
    (s, .error (.invalidInput "Permission not found"))
  else
    match s.rolePermissions.find? (fun rp =>
        rp.roleId == roleId && rp.permissionId == permissionId) with
    | some existing => (s, .ok existing)
    | none =>
      let rp : RolePermissionRec := { roleId := roleId, permissionId := permissionId }
      ({ s with rolePermissions := s.rolePermissions ++ [rp] }, .ok rp)

/-- Embeds `PermissionService.revoke_permission_from_role`. -/
def revoke_permission_from_role (s : Sys) (roleId permissionId : Nat) : Sys × Bool :=
  let remaining := s.rolePermissions.filter (fun rp =>
    !(rp.roleId == roleId && rp.permissionId == permissionId))
  ({ s with rolePermissions := remaining },
   decide (remaining.length < s.rolePermissions.length))

/-- Embeds `PermissionService.set_role_permissions` (`app/auth/rbac.py`
lines 720-754): replaces the role's permission links. -/
def set_role_permissions (s : Sys) (roleId : Nat) (permissionIds : List Nat) :
    Sys × Except Exn Unit :=
  if !(s.roles.any (fun r => r.id == roleId)) then
    (s, .error (.invalidInput "Role not found"))
  else
    let cleared := s.rolePermissions.filter (fun rp => !(rp.roleId == roleId))
    ({ s with rolePermissions :=
        cleared ++ permissionIds.map (fun pid => { roleId := roleId, permissionId := pid }) },
     .ok ())

/-- Embeds `PermissionService.create_role` (`app/auth/rbac.py` lines
393-440): uniqueness of the name, then the row, then the optional
permission links through `assign_permission_to_role`. -/
def create_role (s : Sys) (name : String) (description : Option String)
    (isSystemRole : Bool) (permissionIds : List Nat) (newId : Nat) :
    Sys × Except Exn RoleRec :=
  if s.roles.any (fun r => r.name == name) then
    (s, .error (.invalidInput "Role already exists"))
  else
    let role : RoleRec :=
      { id := newId, name := name, description := description,
        isSystemRole := isSystemRole }
    let s1 : Sys := { s with roles := s.roles ++ [role] }
    let s2 := permissionIds.foldl
      (fun st pid => (assign_permission_to_role st newId pid).1) s1
    (s2, .ok role)

/-- Embeds `PermissionService.delete_role` (`app/auth/rbac.py` lines
492-518): system roles are rejected; deletion cascades to
`role_permissions` and `user_roles`. -/
def delete_role (s : Sys) (roleId : Nat) : Sys × Except Exn Bool :=
  match s.roles.find? (fun r => r.id == roleId) with
  | none => (s, .ok false)
  | some role =>
    if role.isSystemRole then (s, .error (.invalidInput "Cannot delete system roles"))
    else
      ({ s with
          roles := s.roles.filter (fun r => !(r.id == roleId))
          rolePermissions := s.rolePermissions.filter (fun rp => !(rp.roleId == roleId))
          userRoles := s.userRoles.filter (fun ur => !(ur.roleId == roleId)) },
       .ok true)

/-- Embeds the `get_current_user` dependency (`app/auth/dependencies.py`
lines 61-119): bearer token required, `verify_token`, a second blacklist
check, then user cache hit (partial snapshot) or store fetch followed by
`AuthCache.set_user`. -/
def get_current_user (s : Sys) (credentials : Option Jwt) (now : Nat) :
    Sys × Except Exn CachedUser :=
  match credentials with
  | none => (s, .error (.httpUnauthorized "Not authenticated"))
  | some tok =>
    match verify_token s.cache tok now with
    | .error e => (s, .error e)
    | .ok payload =>
      match payload.sub.toNat? with
      | none => (s, .error (.httpUnauthorized "Invalid token"))
      | some userId =>
        if payload.jti ≠ "" && is_token_blacklisted s.cache payload.jti then
          (s, .error (.httpUnauthorized "Token has been revoked"))
        else
          match redis_get s.cache (.user userId) with
          | some (.userSnap cu) => (s, .ok cu)
          | _ =>
            match s.users.find? (fun u => u.id == userId) with
            | none => (s, .error (.httpUnauthorized "User not found"))
            | some user =>
              ({ s with cache := AuthCache_set_user s.cache user.snapshot },
               .ok user.snapshot)

/-- Embeds the `require_permission` dependency check
(`app/auth/dependencies.py` lines 320-358): permission cache hit, or RBAC
resolution followed by cache population, then the membership test. -/
def require_permission_dep (s : Sys) (userId agencyId : Nat)
    (permissionName : String) (now : Nat) : Sys × Except Exn Unit :=
  match redis_get s.cache (.permissions userId agencyId) with
  | some (.permNames names) =>
    if names.contains permissionName then (s, .ok ()) else (s, .error .permissionDenied)
  | _ =>
    let perms := get_user_permissions s userId agencyId false now
    let s2 : Sys :=
      { s with cache := redis_set s.cache (.permissions userId agencyId) (.permNames perms) }
    if perms.contains permissionName then (s2, .ok ())
    else (s2, .error .permissionDenied)

/-- The state-mutating entry points of the repository's auth/permission
core, with all run-time inputs (including the randomness draws and fresh
primary keys) as payload. -/
inductive Op where
  | opRegister (email password : String) (now newUserId pwSalt : Nat)
      (jti rawTok : String) (tokSalt newRtId : Nat)
  | opLogin (email password : String) (now : Nat) (jti rawTok : String)
      (tokSalt : Nat) (deviceInfo : Option String) (newRtId : Nat)
  | opRefresh (refreshToken : String) (now : Nat) (jti : String)
  | opLogoutEndpoint (refreshToken : String) (now : Nat)
  | opLogoutAll (userId now : Nat)
  | opRequestPasswordReset (email : String) (now : Nat) (rawTok : String)
      (tokSalt newId : Nat)
  | opResetPassword (resetToken newPassword : String) (now pwSalt : Nat)
  | opRequestEmailVerification (userId now : Nat) (rawTok : String) (tokSalt newId : Nat)
  | opVerifyEmail (verificationToken : String) (now : Nat)
  | opAssignRole (userId roleId agencyId grantedBy : Nat) (expiresAt : Option Nat) (now : Nat)
  | opRevokeRole (userId roleId agencyId : Nat)
  | opRevokeAllRoles (userId agencyId : Nat)
  | opCreateRole (name : String) (description : Option String) (isSystemRole : Bool)
      (permissionIds : List Nat) (newId : Nat)
  | opAssignPermissionToRole (roleId permissionId : Nat)
  | opRevokePermissionFromRole (roleId permissionId : Nat)
  | opSetRolePermissions (roleId : Nat) (permissionIds : List Nat)
  | opDeleteRole (roleId : Nat)
  | opGetCurrentUser (credentials : Option Jwt) (now : Nat)
  | opRequirePermission (userId agencyId : Nat) (permissionName : String) (now : Nat)

/-- State effect of one operation (the response value is dropped). -/
def applyOp (s : Sys) : Op → Sys
  | .opRegister email password now newUserId pwSalt jti rawTok tokSalt newRtId =>
    (register s email password now newUserId pwSalt jti rawTok tokSalt newRtId).1
  | .opLogin email password now jti rawTok tokSalt deviceInfo newRtId =>
    (login s email password now jti rawTok tokSalt deviceInfo newRtId).1
  | .opRefresh _ _ _ => s
  | .opLogoutEndpoint refreshToken now => (logout_endpoint s refreshToken now).1
  | .opLogoutAll userId now => logout_all_devices s userId now
  | .opRequestPasswordReset email now rawTok tokSalt newId =>
    (request_password_reset s email now rawTok tokSalt newId).1
  | .opResetPassword resetToken newPassword now pwSalt =>
    (reset_password s resetToken newPassword now pwSalt).1
  | .opRequestEmailVerification userId now rawTok tokSalt newId =>
    (request_email_verification s userId now rawTok tokSalt newId).1
  | .opVerifyEmail verificationToken now => (verify_email s verificationToken now).1
  | .opAssignRole userId roleId agencyId grantedBy expiresAt now =>
    (assign_role s userId roleId agencyId grantedBy expiresAt now).1
  | .opRevokeRole userId roleId agencyId => (revoke_role s userId roleId agencyId).1
  | .opRevokeAllRoles userId agencyId => (revoke_all_roles s userId agencyId).1
  | .opCreateRole name description isSystemRole permissionIds newId =>
    (create_role s name description isSystemRole permissionIds newId).1
  | .opAssignPermissionToRole roleId permissionId =>
    (assign_permission_to_role s roleId permissionId).1
  | .opRevokePermissionFromRole roleId permissionId =>
    (revoke_permission_from_role s roleId permissionId).1
  | .opSetRolePermissions roleId permissionIds =>
    (set_role_permissions s roleId permissionIds).1
  | .opDeleteRole roleId => (delete_role s roleId).1
  | .opGetCurrentUser credentials now => (get_current_user s credentials now).1
  | .opRequirePermission userId agencyId permissionName now =>
    (require_permission_dep s userId agencyId permissionName now).1

/-- A cache key belongs to the access-token blacklist family. -/
def isBlacklistKey : CacheKey → Bool
  | .tokenBlacklist _ => true
  | _ => false

/-- The cache holds no access-token blacklist entry. -/
def blacklistFree (c : Cache) : Bool :=
  c.entries.all (fun e => !(isBlacklistKey e.1))

/-- States reachable by the operations of the codebase, starting from any
state whose cache holds no blacklist entry (a fresh deployment starts with
an empty cache). -/
inductive Reachable : Sys → Prop where
  | init (s : Sys) (h : blacklistFree s.cache = true) : Reachable s
  | step (s : Sys) (o : Op) (h : Reachable s) : Reachable (applyOp s o)

/-! Concrete fixtures used by witnesses and counterexamples. -/

/-- A connected, healthy, empty cache (fresh deployment). -/
def emptyCache : Cache := { connected := true, failing := false, entries := [] }

/-- The empty store with a healthy cache. -/
def S0 : Sys :=
  { users := [], refreshTokens := [], resetTokens := [], verifyTokens := [],
    roles := [], permissions := [], rolePermissions := [], userRoles := [],
    agencies := [], cache := emptyCache }

/-- A registered user `a@x.com` with password `Str0ng!Pass`. -/
def U1 : UserRec :=
  { id := 1, email := "a@x.com", passwordHash := { salt := 0, pw := "Str0ng!Pass" },
    isActive := true, isVerified := false, emailVerifiedAt := none, lastLoginAt := none,
    failedLoginAttempts := 0, lockedUntil := none }

/-- Store holding `U1` and one revoked refresh token whose raw value is
`rtok`. -/
def SRevoked : Sys :=
  { S0 with
    users := [U1]
    refreshTokens := [{ id := 1, userId := 1, tokenHash := { salt := 2, pw := "rtok" }
                        tokenPrefix8 := none, expiresAt := 1000, revokedAt := some 5
                        deviceInfo := none, isRevoked := true }] }

/-- Store holding `U1` and one refresh token (raw value `rtok`) that expired
at instant 5. -/
def SExpired : Sys :=
  { S0 with
    users := [U1]
    refreshTokens := [{ id := 1, userId := 1, tokenHash := { salt := 2, pw := "rtok" }
                        tokenPrefix8 := none, expiresAt := 5, revokedAt := none
                        deviceInfo := none, isRevoked := false }] }

/-! ## C9 — register on a valid input -/

/-- C9: registering the fresh email `a@x.com` with the policy-conforming
password `Str0ng!Pass` does not return the promised
`(user, access_token, refresh_token)` triple: the user row is committed
(with `is_verified = False` and no refresh-token row, hence no stored hash
and no stored prefix), and the call then raises `AttributeError`, because
`create_refresh_token` returns a `(token, prefix)` tuple that
`hash_password` cannot encode.  This evaluates the code at the failing
input of the `code_bug` verdict. -/
theorem claim_C9_register_crashes :
    (register S0 "a@x.com" "Str0ng!Pass" 0 1 11 "j1" "rawtokenrawtoken" 12 2).2
      = .error .attributeError ∧
    (register S0 "a@x.com" "Str0ng!Pass" 0 1 11 "j1" "rawtokenrawtoken" 12 2).1.users
      = [{ id := 1, email := "a@x.com", passwordHash := { salt := 11, pw := "Str0ng!Pass" }
           isActive := true, isVerified := false, emailVerifiedAt := none
           lastLoginAt := none, failedLoginAttempts := 0, lockedUntil := none }] ∧
    (register S0 "a@x.com" "Str0ng!Pass" 0 1 11 "j1" "rawtokenrawtoken" 12 2).1.refreshTokens
      = [] := by
  refine ⟨rfl, ?_, rfl⟩
  decide

/-! ## C2 — refresh_access_token error discrimination -/

/-- C2: the candidate query of `refresh_access_token` filters out revoked
and expired rows before the hash comparison, so a supplied token whose
matching record is revoked (store `SRevoked`) raises `InvalidTokenError`,
not `RefreshTokenRevokedError`, and one whose matching record is expired
(store `SExpired`) raises `InvalidTokenError`, not `TokenExpiredError` —
contradicting the claim and the method's own docstring.  This evaluates the
code at the failing inputs of the `code_bug` verdict. -/
theorem claim_C2_refresh_errors :
    refresh_access_token SRevoked "rtok" 10 "j2"
      = .error (.invalidToken "Invalid refresh token") ∧
    refresh_access_token SExpired "rtok" 10 "j2"
      = .error (.invalidToken "Invalid refresh token") := by
  exact ⟨rfl, rfl⟩

/-! ## C1 — blacklist-cache unavailability is fail-open, not fail-closed -/

/-- A disconnected cache that nevertheless holds a blacklist entry for jti
`j1`: its status cannot be determined by `RedisCache.exists`. -/
def C1cache : Cache :=
  { connected := false, failing := false
    entries := [(CacheKey.tokenBlacklist "j1", CacheVal.marker)] }

/-- A well-signed access token carrying jti `j1`, expiring at 1800. -/
def C1claims : AccessClaims :=
  { sub := "1", email := "a@x.com", iat := 0, exp := 1800, jti := "j1", typ := "access" }

/-- The signed token for `C1claims`. -/
def C1tok : Jwt := .signed JWT_SECRET_KEY C1claims

/-- C1 counterexample: with the revocation-blacklist cache unavailable
(disconnected), `verify_token` ACCEPTS the well-signed unexpired token
`C1tok` even though its jti is blacklisted in the cache store — the same
token is rejected once the cache is reachable.  So the verification request
does not fail closed on cache unavailability, refuting the claim. -/
theorem claim_C1_counterexample :
    Cache.available C1cache = false ∧
    verify_token C1cache C1tok 0 = .ok C1claims ∧
    verify_token { C1cache with connected := true } C1tok 0
      = .error (.invalidToken "Token has been revoked") := by
  exact ⟨rfl, rfl, rfl⟩

/-- C1 amended: when the revocation-blacklist cache is unavailable (not
connected, or commands erroring), `RedisCache.exists` returns `False`, so
`is_token_blacklisted` reports every jti as not blacklisted and
`verify_token` accepts every well-signed, unexpired access token
(fail-open); the request is never failed because of the cache outage. -/
theorem claim_C1_amended (c : Cache) (tok : Jwt) (now : Nat)
    (hun : Cache.available c = false) :
    (∀ jti, is_token_blacklisted c jti = false) ∧
    (∀ claims, jwt_decode tok now = .ok claims →
      verify_token c tok now = .ok claims) := by
  have hor : (!c.connected || c.failing) = true := by
    unfold Cache.available at hun
    cases hc : c.connected with
    | false => simp
    | true =>
      rw [hc] at hun
      simp at hun
      simp [hun]
  have hex : ∀ k, redis_exists c k = false := by
    intro k
    unfold redis_exists
    simp [hor]
  refine ⟨fun jti => hex _, fun claims hdec => ?_⟩
  unfold verify_token
  rw [hdec]
  simp [is_token_blacklisted, hex]

/-- Witness for the C1 amended theorem at the concrete unavailable cache
`C1cache` and token `C1tok`. -/
theorem claim_C1_witness :
    is_token_blacklisted C1cache "j1" = false ∧
    verify_token C1cache C1tok 0 = .ok C1claims := by
  exact ⟨(claim_C1_amended C1cache C1tok 0 rfl).1 "j1",
         (claim_C1_amended C1cache C1tok 0 rfl).2 C1claims rfl⟩

/-! ## Shared helper lemmas -/

/-- A search over a filtered list fails when filter and predicate are
jointly unsatisfiable. -/
theorem find?_filter_none {α : Type} (l : List α) (f p : α → Bool)
    (h : ∀ x ∈ l, f x = true → p x = true → False) :
    (l.filter f).find? p = none := by
  rw [List.find?_eq_none]
  intro x hx hpx
  have hm := List.mem_filter.mp hx
  exact h x hm.1 hm.2 hpx

/-! ## C5 — consumed reset / verification tokens never authorize again -/

/-- C5: when every stored reset-token record matching the supplied raw token
is already consumed (`used_at` non-null) — regardless of expiry — a call to
`reset_password` with a policy-conforming new password raises
`InvalidTokenError` and changes no state; symmetrically for `verify_email`
and `verified_at`. -/
theorem claim_C5_single_use (s : Sys) (rawReset newPassword : String)
    (now pwSalt : Nat) (rawVerify : String) (now2 : Nat)
    (hstrong : (check_password_strength newPassword).1 = true)
    (hconsumedR : ∀ t ∈ s.resetTokens,
      verify_password rawReset t.tokenHash = true → t.usedAt ≠ none)
    (hconsumedV : ∀ t ∈ s.verifyTokens,
      verify_password rawVerify t.tokenHash = true → t.verifiedAt ≠ none) :
    reset_password s rawReset newPassword now pwSalt
      = (s, .error (.invalidToken "Invalid or expired password reset token")) ∧
    verify_email s rawVerify now2
      = (s, .error (.invalidToken "Invalid or expired email verification token")) := by
  have hfindR : (s.resetTokens.filter
      (fun t => t.usedAt == none && decide (now < t.expiresAt))).find?
      (fun t => verify_password rawReset t.tokenHash) = none := by
    apply find?_filter_none
    intro t ht hf hp
    simp only [Bool.and_eq_true, beq_iff_eq] at hf
    exact hconsumedR t ht hp hf.1
  have hfindV : (s.verifyTokens.filter
      (fun t => t.verifiedAt == none && decide (now2 < t.expiresAt))).find?
      (fun t => verify_password rawVerify t.tokenHash) = none := by
    apply find?_filter_none
    intro t ht hf hp
    simp only [Bool.and_eq_true, beq_iff_eq] at hf
    exact hconsumedV t ht hp hf.1
  constructor
  · unfold reset_password
    simp only [hstrong, Bool.not_true, Bool.false_eq_true, if_false, hfindR]
  · unfold verify_email
    simp only [hfindV]

/-- A store whose only reset and verification tokens are consumed (but not
expired at instant 10). -/
def SConsumed : Sys :=
  { S0 with
    users := [U1]
    resetTokens := [{ id := 1, userId := 1, tokenHash := { salt := 3, pw := "rsttok" }
                      tokenPrefix8 := none, expiresAt := 1000, usedAt := some 5 }]
    verifyTokens := [{ id := 1, userId := 1, tokenHash := { salt := 4, pw := "vertok" }
                       expiresAt := 1000, verifiedAt := some 5 }] }

/-- Witness for C5 at the concrete consumed tokens of `SConsumed`. -/
theorem claim_C5_witness :
    reset_password SConsumed "rsttok" "N3w!Passw" 10 7
      = (SConsumed, .error (.invalidToken "Invalid or expired password reset token")) ∧
    verify_email SConsumed "vertok" 10
      = (SConsumed, .error (.invalidToken "Invalid or expired email verification token")) :=
  claim_C5_single_use SConsumed "rsttok" "N3w!Passw" 10 7 "vertok" 10
    (by decide) (by decide) (by decide)

/-! ## C8 — tenant isolation of role assignment -/

/-- Appending a role assignment scoped to a different agency leaves the
resolved permission set unchanged. -/
theorem get_user_permissions_append_other (s : Sys) (a : UserRoleRec)
    (userId agencyId : Nat) (ie : Bool) (now : Nat)
    (h : (a.agencyId == agencyId) = false) :
    get_user_permissions { s with userRoles := s.userRoles ++ [a] } userId agencyId ie now
      = get_user_permissions s userId agencyId ie now := by
  unfold get_user_permissions
  simp only [List.any_append, List.any_cons, List.any_nil, h, Bool.and_false,
    Bool.false_and, Bool.or_false]

/-- C8: for distinct tenants `t1 ≠ t2`, `assign_role` of any role to any
user in `t1` (whatever its outcome) leaves the result of
`get_user_permissions(u, t2)` unchanged, at every instant: per-tenant
permission sets are independent. -/
theorem claim_C8_tenant_isolation (s : Sys) (userId roleId t1 t2 grantedBy : Nat)
    (expiresAt : Option Nat) (now : Nat) (hne : t1 ≠ t2) (u2 now2 : Nat) :
    get_user_permissions (assign_role s userId roleId t1 grantedBy expiresAt now).1
        u2 t2 false now2
      = get_user_permissions s u2 t2 false now2 := by
  have hb : (t1 == t2) = false := by
    simp [hne]
  unfold assign_role
  split
  · rfl
  · split
    · rfl
    · split
      · rfl
      · split
        · rfl
        · exact get_user_permissions_append_other s _ u2 t2 false now2 hb

/-- An RBAC fixture: permission `contacts.view` linked to role 10, assigned
to user 1 in agency 100; agencies 100 and 200 exist. -/
def SRbac : Sys :=
  { S0 with
    users := [U1]
    roles := [{ id := 10, name := "agent", description := none, isSystemRole := false }]
    permissions := [{ id := 1, name := "contacts.view", resource := "contacts"
                      action := "view" }]
    rolePermissions := [{ roleId := 10, permissionId := 1 }]
    userRoles := [{ userId := 1, roleId := 10, agencyId := 100, grantedBy := 1
                    grantedAt := 0, expiresAt := none }]
    agencies := [100, 200] }

/-- Witness for C8: assigning role 10 to user 1 in agency 100 leaves user
1's permissions in agency 200 unchanged. -/
theorem claim_C8_witness :
    get_user_permissions (assign_role SRbac 1 10 100 1 none 0).1 1 200 false 0
      = get_user_permissions SRbac 1 200 false 0 :=
  claim_C8_tenant_isolation SRbac 1 10 100 200 1 none 0 (by decide) 1 0

/-! ## C7 — authoritative permission resolution -/

/-- Spec-side definition (for the refinement claim C7), written from the
spec's words: a user holds permission `name` in tenant T exactly when some
role assignment of the user in T that is unexpired (`expires_at` null or
strictly in the future) links, through a role-permission row, to a
permission row named `name`. -/
def specHasPermission (s : Sys) (userId agencyId now : Nat) (name : String) : Prop :=
  ∃ ur ∈ s.userRoles, ur.userId = userId ∧ ur.agencyId = agencyId ∧
    (ur.expiresAt = none ∨ ∃ e, ur.expiresAt = some e ∧ now < e) ∧
    ∃ rp ∈ s.rolePermissions, rp.roleId = ur.roleId ∧
      ∃ p ∈ s.permissions, p.id = rp.permissionId ∧ p.name = name

/-- The Boolean expiry filter agrees with the spec-side disjunction. -/
theorem assignmentValidAt_iff (ur : UserRoleRec) (now : Nat) :
    assignmentValidAt ur now = true ↔
      (ur.expiresAt = none ∨ ∃ e, ur.expiresAt = some e ∧ now < e) := by
  cases h : ur.expiresAt with
  | none => simp [assignmentValidAt, h]
  | some e => simp [assignmentValidAt, h]

/-- C7: under referential integrity of role assignments (every assignment's
`role_id` has a `roles` row — the SQL join passes through that table),
`get_user_permissions(u, T)` with `include_expired = False` contains exactly
the names given by the spec-side union `specHasPermission`: expired
assignments and assignments in other tenants contribute nothing. -/
theorem claim_C7_resolution (s : Sys) (userId agencyId now : Nat)
    (hwf : ∀ ur ∈ s.userRoles, ∃ r ∈ s.roles, r.id = ur.roleId) (name : String) :
    name ∈ get_user_permissions s userId agencyId false now ↔
      specHasPermission s userId agencyId now name := by
  unfold get_user_permissions specHasPermission
  simp only [List.mem_dedup, List.mem_map, List.mem_filter, List.any_eq_true,
    Bool.and_eq_true, beq_iff_eq, Bool.false_or, assignmentValidAt_iff]
  constructor
  · rintro ⟨p, ⟨hp, rp, hrp, hrpid, r, hr, hrid, ur, hur, ⟨⟨hurrole, huru⟩, hura⟩, hvalid⟩, hname⟩
    exact ⟨ur, hur, huru, hura, hvalid,
      rp, hrp, (hurrole.trans hrid).symm, p, hp, hrpid.symm, hname⟩
  · rintro ⟨ur, hur, huru, hura, hvalid, rp, hrp, hrprole, p, hp, hpid, hname⟩
    obtain ⟨r, hr, hrid⟩ := hwf ur hur
    exact ⟨p, ⟨hp, rp, hrp, hpid.symm, r, hr, hrid.trans hrprole.symm, ur, hur,
      ⟨⟨hrid.symm, huru⟩, hura⟩, hvalid⟩, hname⟩

/-- Witness for C7 at the fixture `SRbac`: user 1 in agency 100 holds
exactly the linked permission name. -/
theorem claim_C7_witness :
    "contacts.view" ∈ get_user_permissions SRbac 1 100 false 0 :=
  (claim_C7_resolution SRbac 1 100 0 (by decide) "contacts.view").mpr
    ⟨{ userId := 1, roleId := 10, agencyId := 100, grantedBy := 1, grantedAt := 0
       expiresAt := none },
     by decide, rfl, rfl, Or.inl rfl,
     { roleId := 10, permissionId := 1 }, by decide, rfl,
     { id := 1, name := "contacts.view", resource := "contacts", action := "view" },
     by decide, rfl, rfl⟩

/-! ## Login / Account Guard helper lemmas (for C3 and C4) -/

/-- The user row after the failed-password branch of `AuthService.login`
(increment the counter; set the lockout when the maximum is reached). -/
def bumpFail (u : UserRec) (now : Nat) : UserRec :=
  { u with
    failedLoginAttempts := u.failedLoginAttempts + 1
    lockedUntil :=
      if MAX_FAILED_ATTEMPTS ≤ u.failedLoginAttempts + 1 then
        some (now + LOCKOUT_DURATION_MINUTES * 60)
      else u.lockedUntil }

/-- The store after `n` consecutive failed login attempts at the given
instants. -/
def failLogins (s : Sys) (email wrongPw : String) (ts : List Nat)
    (jti rawTok : String) (tokSalt : Nat) (di : Option String) (rid : Nat) : Sys :=
  ts.foldl (fun st t => (login st email wrongPw t jti rawTok tokSalt di rid).1) s

/-- A login attempt against a currently locked account fails with
`AccountLockedError` carrying the unlock time, before the password is ever
checked. -/
theorem login_locked (s : Sys) (email password : String) (now : Nat)
    (jti rawTok : String) (tokSalt : Nat) (di : Option String) (rid : Nat) (u : UserRec)
    (hfind : s.users.find? (fun v => v.email == pyLower email) = some u)
    (hlock : isLockedAt u now = true) :
    login s email password now jti rawTok tokSalt di rid
      = (s, .error (.accountLocked (u.lockedUntil.getD 0))) := by
  unfold login
  rw [hfind]
  simp [hlock]

/-- A login attempt with a wrong password against an unlocked active
account commits the bumped counter/lockout and fails with
`InvalidCredentialsError`. -/
theorem login_failed_step (s : Sys) (email password : String) (now : Nat)
    (jti rawTok : String) (tokSalt : Nat) (di : Option String) (rid : Nat) (u : UserRec)
    (hfind : s.users.find? (fun v => v.email == pyLower email) = some u)
    (hnl : isLockedAt u now = false)
    (hact : u.isActive = true)
    (hpw : verify_password password u.passwordHash = false) :
    login s email password now jti rawTok tokSalt di rid
      = (updateUser s (bumpFail u now), .error .invalidCredentials) := by
  unfold login bumpFail
  rw [hfind]
  simp [hnl, hact, hpw]

/-- Replacing the (unique) found row keeps it findable: the updated row is
returned by the same search. -/
theorem find?_map_update (l : List UserRec) (u u2 : UserRec) (p : UserRec → Bool)
    (hfind : l.find? p = some u)
    (hid : ∀ v ∈ l, v.id = u.id → v = u)
    (hid2 : u2.id = u.id) (hp2 : p u2 = true) :
    (l.map (fun v => if v.id == u2.id then u2 else v)).find? p = some u2 := by
  induction l with
  | nil => simp at hfind
  | cons v l ih =>
    by_cases hv : p v = true
    · rw [List.find?_cons_of_pos l hv] at hfind
      have hvu : v = u := by injection hfind
      have hbeq : (v.id == u2.id) = true := by simp [hvu, hid2]
      simp only [List.map_cons]
      rw [if_pos hbeq, List.find?_cons_of_pos _ hp2]
    · have hv' : p v = false := by simpa using hv
      rw [List.find?_cons_of_neg l hv] at hfind
      have hpu : p u = true := List.find?_some hfind
      have hvid : ¬((v.id == u2.id) = true) := by
        rw [hid2]
        simp only [beq_iff_eq]
        intro he
        have hvu := hid v (List.mem_cons_self v l) he
        rw [hvu, hpu] at hv'
        exact Bool.true_eq_false.mp hv'
      simp only [List.map_cons]
      rw [if_neg hvid, List.find?_cons_of_neg _ hv]
      exact ih hfind (fun w hw hwid => hid w (List.mem_cons_of_mem v hw) hwid)

/-- Replacing every id-matching row preserves id-uniqueness for the new
row. -/
theorem id_unique_map_update (l : List UserRec) (u2 : UserRec) :
    ∀ w ∈ l.map (fun v => if v.id == u2.id then u2 else v), w.id = u2.id → w = u2 := by
  intro w hw hwid
  rcases List.mem_map.mp hw with ⟨v, hv, rfl⟩
  by_cases hc : (v.id == u2.id) = true
  · rw [if_pos hc]
  · rw [if_neg (by simp [hc])] at hwid ⊢
    exact absurd (by simp [hwid] : (v.id == u2.id) = true) hc

/-- One failed attempt, bundled with the facts needed to chain the next
attempt: the committed store, search stability, id-uniqueness, preserved
account fields and the bumped guard fields. -/
theorem failed_step_facts (s : Sys) (email wrongPw : String) (t : Nat)
    (jti rawTok : String) (tokSalt : Nat) (di : Option String) (rid : Nat)
    (u : UserRec) (k : Nat)
    (hfind : s.users.find? (fun v => v.email == pyLower email) = some u)
    (hid : ∀ v ∈ s.users, v.id = u.id → v = u)
    (hact : u.isActive = true)
    (hwrong : verify_password wrongPw u.passwordHash = false)
    (hk : u.failedLoginAttempts = k)
    (hL : u.lockedUntil = none) :
    (login s email wrongPw t jti rawTok tokSalt di rid).1 = updateUser s (bumpFail u t) ∧
    (updateUser s (bumpFail u t)).users.find? (fun v => v.email == pyLower email)
      = some (bumpFail u t) ∧
    (∀ v ∈ (updateUser s (bumpFail u t)).users, v.id = (bumpFail u t).id → v = bumpFail u t) ∧
    (bumpFail u t).isActive = true ∧
    verify_password wrongPw (bumpFail u t).passwordHash = false ∧
    (bumpFail u t).failedLoginAttempts = k + 1 ∧
    (bumpFail u t).lockedUntil
      = (if MAX_FAILED_ATTEMPTS ≤ k + 1 then some (t + LOCKOUT_DURATION_MINUTES * 60)
         else none) := by
  have hnl : isLockedAt u t = false := by
    simp [isLockedAt, hL]
  have hpu : (u.email == pyLower email) = true := by
    have := List.find?_some hfind
    simpa using this
  have hp2 : (fun v : UserRec => v.email == pyLower email) (bumpFail u t) = true := by
    simpa [bumpFail] using hpu
  refine ⟨?_, ?_, ?_, hact, hwrong, ?_, ?_⟩
  · rw [login_failed_step s email wrongPw t jti rawTok tokSalt di rid u hfind hnl hact hwrong]
  · exact find?_map_update s.users u (bumpFail u t) _ hfind hid rfl hp2
  · exact id_unique_map_update s.users (bumpFail u t)
  · simp [bumpFail, hk]
  · simp [bumpFail, hk, hL]

/-! ## C3 — lockout after five consecutive failures -/

/-- C3: for a user starting at `failed_login_attempts = 0` with no lockout,
after exactly `MAX_FAILED_ATTEMPTS = 5` consecutive failed attempts (at any
instants `t1 … t5`), every further attempt before the lockout elapses —
with any password, correct or not — fails with `AccountLockedError`
carrying the unlock time `t5 + 30 minutes`, and changes no state. -/
theorem claim_C3_lockout (s : Sys) (email wrongPw : String)
    (t1 t2 t3 t4 t5 : Nat) (jti rawTok : String) (tokSalt : Nat)
    (di : Option String) (rid : Nat) (u : UserRec)
    (hfind : s.users.find? (fun v => v.email == pyLower email) = some u)
    (hid : ∀ v ∈ s.users, v.id = u.id → v = u)
    (hact : u.isActive = true)
    (hwrong : verify_password wrongPw u.passwordHash = false)
    (h0 : u.failedLoginAttempts = 0)
    (hL : u.lockedUntil = none) :
    ∀ (password : String) (t6 : Nat), t6 < t5 + LOCKOUT_DURATION_MINUTES * 60 →
      login (failLogins s email wrongPw [t1, t2, t3, t4, t5] jti rawTok tokSalt di rid)
          email password t6 jti rawTok tokSalt di rid
        = (failLogins s email wrongPw [t1, t2, t3, t4, t5] jti rawTok tokSalt di rid,
           .error (.accountLocked (t5 + LOCKOUT_DURATION_MINUTES * 60))) := by
  intro password t6 ht6
  obtain ⟨e1, f1, i1, a1, w1, k1, l1⟩ :=
    failed_step_facts s email wrongPw t1 jti rawTok tokSalt di rid u 0
      hfind hid hact hwrong h0 hL
  norm_num [MAX_FAILED_ATTEMPTS] at l1
  obtain ⟨e2, f2, i2, a2, w2, k2, l2⟩ :=
    failed_step_facts _ email wrongPw t2 jti rawTok tokSalt di rid (bumpFail u t1) 1
      f1 i1 a1 w1 k1 l1
  norm_num [MAX_FAILED_ATTEMPTS] at l2
  obtain ⟨e3, f3, i3, a3, w3, k3, l3⟩ :=
    failed_step_facts _ email wrongPw t3 jti rawTok tokSalt di rid
      (bumpFail (bumpFail u t1) t2) 2 f2 i2 a2 w2 k2 l2
  norm_num [MAX_FAILED_ATTEMPTS] at l3
  obtain ⟨e4, f4, i4, a4, w4, k4, l4⟩ :=
    failed_step_facts _ email wrongPw t4 jti rawTok tokSalt di rid
      (bumpFail (bumpFail (bumpFail u t1) t2) t3) 3 f3 i3 a3 w3 k3 l3
  norm_num [MAX_FAILED_ATTEMPTS] at l4
  obtain ⟨e5, f5, i5, a5, w5, k5, l5⟩ :=
    failed_step_facts _ email wrongPw t5 jti rawTok tokSalt di rid
      (bumpFail (bumpFail (bumpFail (bumpFail u t1) t2) t3) t4) 4 f4 i4 a4 w4 k4 l4
  norm_num [MAX_FAILED_ATTEMPTS] at l5
  have hlock : isLockedAt
      (bumpFail (bumpFail (bumpFail (bumpFail (bumpFail u t1) t2) t3) t4) t5) t6 = true := by
    simp [isLockedAt, l5, ht6]
  have hS : failLogins s email wrongPw [t1, t2, t3, t4, t5] jti rawTok tokSalt di rid
      = updateUser
          (updateUser
            (updateUser
              (updateUser (updateUser s (bumpFail u t1)) (bumpFail (bumpFail u t1) t2))
              (bumpFail (bumpFail (bumpFail u t1) t2) t3))
            (bumpFail (bumpFail (bumpFail (bumpFail u t1) t2) t3) t4))
          (bumpFail (bumpFail (bumpFail (bumpFail (bumpFail u t1) t2) t3) t4) t5) := by
    simp only [failLogins, List.foldl]
    rw [e1, e2, e3, e4, e5]
  rw [hS]
  rw [login_locked _ email password t6 jti rawTok tokSalt di rid _ f5 hlock]
  simp [l5]

/-- Store holding just the user `U1`. -/
def SU1 : Sys := { S0 with users := [U1] }

/-- Witness for C3: five wrong-password logins for `U1` at instants 1-5,
then a correct-password attempt at instant 100 fails locked until 1805. -/
theorem claim_C3_witness :
    login (failLogins SU1 "a@x.com" "bad" [1, 2, 3, 4, 5] "j" "r" 9 none 3)
        "a@x.com" "Str0ng!Pass" 100 "j" "r" 9 none 3
      = (failLogins SU1 "a@x.com" "bad" [1, 2, 3, 4, 5] "j" "r" 9 none 3,
         .error (.accountLocked (5 + LOCKOUT_DURATION_MINUTES * 60))) :=
  claim_C3_lockout SU1 "a@x.com" "bad" 1 2 3 4 5 "j" "r" 9 none 3 U1
    (by decide) (by decide) rfl (by decide) rfl rfl "Str0ng!Pass" 100 (by decide)

/-! ## C4 — the Account Guard state machine -/

/-- A user whose lockout (until instant 100) has been reached with the
counter at 5. -/
def U4 : UserRec := { U1 with failedLoginAttempts := 5, lockedUntil := some 100 }

/-- Store holding just `U4`. -/
def S4 : Sys := { S0 with users := [U4] }

/-- C4 counterexample: after `U4`'s lockout expired (instant 200 > 100), a
SINGLE further failed attempt re-locks the account until 2000 — the next
attempt, with the correct password, is rejected `AccountLockedError` — so
after lockout expiry the account is not back in a state requiring `N = 5`
fresh failures; one suffices, refuting the claim. -/
theorem claim_C4_counterexample :
    (login S4 "a@x.com" "bad" 200 "j" "r" 9 none 3).1.users
      = [{ U1 with failedLoginAttempts := 6, lockedUntil := some 2000 }] ∧
    (login (login S4 "a@x.com" "bad" 200 "j" "r" 9 none 3).1
        "a@x.com" "Str0ng!Pass" 201 "j" "r" 9 none 3).2
      = .error (.accountLocked 2000) := by
  exact ⟨by decide, by decide⟩

/-- C4 amended: (a) a successful login resets the counter to 0 and clears
the lockout; (b) from a fresh state, four consecutive failures leave the
account unlocked (LOCKED is reached only at the fifth); (c) but lockout
expiry does not reset the counter: once the counter has reached the
maximum, a single further failed attempt after expiry re-locks the account
for another 30 minutes — five fresh failures are required again only after
a successful login (or password reset) resets the counter. -/
theorem claim_C4_amended :
    (∀ (s : Sys) (email password : String) (now : Nat) (jti rawTok : String)
       (tokSalt : Nat) (di : Option String) (rid : Nat) (u : UserRec),
       s.users.find? (fun v => v.email == pyLower email) = some u →
       isLockedAt u now = false →
       u.isActive = true →
       verify_password password u.passwordHash = true →
       ∀ v ∈ (login s email password now jti rawTok tokSalt di rid).1.users,
         v.id = u.id → v.failedLoginAttempts = 0 ∧ v.lockedUntil = none) ∧
    (∀ (s : Sys) (email wrongPw : String) (t1 t2 t3 t4 : Nat) (jti rawTok : String)
       (tokSalt : Nat) (di : Option String) (rid : Nat) (u : UserRec),
       s.users.find? (fun v => v.email == pyLower email) = some u →
       (∀ v ∈ s.users, v.id = u.id → v = u) →
       u.isActive = true →
       verify_password wrongPw u.passwordHash = false →
       u.failedLoginAttempts = 0 →
       u.lockedUntil = none →
       ∃ u4, (failLogins s email wrongPw [t1, t2, t3, t4] jti rawTok tokSalt di rid).users.find?
           (fun v => v.email == pyLower email) = some u4 ∧
         u4.failedLoginAttempts = 4 ∧ u4.lockedUntil = none) ∧
    (∀ (s : Sys) (email wrongPw : String) (now T : Nat) (jti rawTok : String)
       (tokSalt : Nat) (di : Option String) (rid : Nat) (u : UserRec),
       s.users.find? (fun v => v.email == pyLower email) = some u →
       u.lockedUntil = some T →
       T ≤ now →
       u.isActive = true →
       verify_password wrongPw u.passwordHash = false →
       MAX_FAILED_ATTEMPTS ≤ u.failedLoginAttempts + 1 →
       login s email wrongPw now jti rawTok tokSalt di rid
         = (updateUser s (bumpFail u now), .error .invalidCredentials) ∧
       (bumpFail u now).lockedUntil = some (now + LOCKOUT_DURATION_MINUTES * 60)) := by
  refine ⟨?_, ?_, ?_⟩
  · intro s email password now jti rawTok tokSalt di rid u hfind hnl hact hpw v hv hvid
    unfold login at hv
    rw [hfind] at hv
    simp only [hnl, Bool.false_eq_true, if_false, hact, Bool.not_true, hpw] at hv
    rcases List.mem_map.mp hv with ⟨w, hw, rfl⟩
    by_cases hc : (w.id == u.id) = true
    · simp [hc]
    · rw [if_neg (by simpa using hc)] at hvid ⊢
      exact absurd (by simp [hvid] : (w.id == u.id) = true) hc
  · intro s email wrongPw t1 t2 t3 t4 jti rawTok tokSalt di rid u
      hfind hid hact hwrong h0 hL
    obtain ⟨e1, f1, i1, a1, w1, k1, l1⟩ :=
      failed_step_facts s email wrongPw t1 jti rawTok tokSalt di rid u 0
        hfind hid hact hwrong h0 hL
    norm_num [MAX_FAILED_ATTEMPTS] at l1
    obtain ⟨e2, f2, i2, a2, w2, k2, l2⟩ :=
      failed_step_facts _ email wrongPw t2 jti rawTok tokSalt di rid (bumpFail u t1) 1
        f1 i1 a1 w1 k1 l1
    norm_num [MAX_FAILED_ATTEMPTS] at l2
    obtain ⟨e3, f3, i3, a3, w3, k3, l3⟩ :=
      failed_step_facts _ email wrongPw t3 jti rawTok tokSalt di rid
        (bumpFail (bumpFail u t1) t2) 2 f2 i2 a2 w2 k2 l2
    norm_num [MAX_FAILED_ATTEMPTS] at l3
    obtain ⟨e4, f4, i4, a4, w4, k4, l4⟩ :=
      failed_step_facts _ email wrongPw t4 jti rawTok tokSalt di rid
        (bumpFail (bumpFail (bumpFail u t1) t2) t3) 3 f3 i3 a3 w3 k3 l3
    norm_num [MAX_FAILED_ATTEMPTS] at l4
    have hS : failLogins s email wrongPw [t1, t2, t3, t4] jti rawTok tokSalt di rid
        = updateUser
            (updateUser
              (updateUser (updateUser s (bumpFail u t1)) (bumpFail (bumpFail u t1) t2))
              (bumpFail (bumpFail (bumpFail u t1) t2) t3))
            (bumpFail (bumpFail (bumpFail (bumpFail u t1) t2) t3) t4) := by
      simp only [failLogins, List.foldl]
      rw [e1, e2, e3, e4]
    refine ⟨bumpFail (bumpFail (bumpFail (bumpFail u t1) t2) t3) t4, ?_, ?_, l4⟩
    · rw [hS]
      exact f4
    · omega
  · intro s email wrongPw now T jti rawTok tokSalt di rid u
      hfind hT hle hact hwrong hmax
    have hnl : isLockedAt u now = false := by
      simp only [isLockedAt, hT, decide_eq_false_iff_not, not_lt]
      exact hle
    refine ⟨login_failed_step s email wrongPw now jti rawTok tokSalt di rid u
      hfind hnl hact hwrong, ?_⟩
    simp [bumpFail, hmax]

/-- Witness for the three parts of the amended C4, at `U1` (parts a, b) and
the expired-lockout user `U4` (part c). -/
theorem claim_C4_witness :
    (∀ v ∈ (login SU1 "a@x.com" "Str0ng!Pass" 50 "j" "r" 9 none 3).1.users,
       v.id = U1.id → v.failedLoginAttempts = 0 ∧ v.lockedUntil = none) ∧
    (∃ u4, (failLogins SU1 "a@x.com" "bad" [1, 2, 3, 4] "j" "r" 9 none 3).users.find?
        (fun v => v.email == pyLower "a@x.com") = some u4 ∧
      u4.failedLoginAttempts = 4 ∧ u4.lockedUntil = none) ∧
    (login S4 "a@x.com" "bad" 200 "j" "r" 9 none 3
        = (updateUser S4 (bumpFail U4 200), .error .invalidCredentials) ∧
     (bumpFail U4 200).lockedUntil = some (200 + LOCKOUT_DURATION_MINUTES * 60)) :=
  ⟨claim_C4_amended.1 SU1 "a@x.com" "Str0ng!Pass" 50 "j" "r" 9 none 3 U1
     (by decide) rfl rfl (by decide),
   claim_C4_amended.2.1 SU1 "a@x.com" "bad" 1 2 3 4 "j" "r" 9 none 3 U1
     (by decide) (by decide) rfl (by decide) rfl rfl,
   claim_C4_amended.2.2 S4 "a@x.com" "bad" 200 100 "j" "r" 9 none 3 U4
     (by decide) rfl (by decide) rfl (by decide) (by decide)⟩

/-! ## C6 — cascade revocation on password reset -/

/-- Every refresh token owned by the user is revoked after
`logout_all_devices`. -/
theorem logout_all_revokes (s : Sys) (uid now : Nat) :
    ∀ t ∈ (logout_all_devices s uid now).refreshTokens,
      t.userId = uid → t.isRevoked = true := by
  intro t ht hid
  simp only [logout_all_devices] at ht
  rcases List.mem_map.mp ht with ⟨t0, ht0, rfl⟩
  by_cases hc : (t0.userId == uid && !t0.isRevoked) = true
  · rw [if_pos hc]
  · rw [if_neg hc] at hid ⊢
    simp only [Bool.and_eq_true, beq_iff_eq, Bool.not_eq_true', not_and] at hc
    simpa using hc hid

/-- When every hash-matching refresh-token row is revoked, the candidate
query of `refresh_access_token` finds nothing and the call fails
`InvalidTokenError`. -/
theorem refresh_invalid_of_all_matching_revoked (s : Sys) (raw : String)
    (now : Nat) (jti : String)
    (h : ∀ t ∈ s.refreshTokens,
      verify_password raw t.tokenHash = true → t.isRevoked = true) :
    refresh_access_token s raw now jti
      = .error (.invalidToken "Invalid refresh token") := by
  unfold refresh_access_token
  have hfind : (s.refreshTokens.filter
      (fun t => !t.isRevoked && decide (now < t.expiresAt))).find?
      (fun t => verify_password raw t.tokenHash) = none := by
    apply find?_filter_none
    intro t ht hf hp
    simp only [Bool.and_eq_true, Bool.not_eq_true'] at hf
    rw [h t ht hp] at hf
    exact Bool.true_eq_false.mp hf.1
  simp only [hfind]

/-- C6: whenever `reset_password` succeeds, returning the updated user,
every refresh token of that user in the resulting store is revoked; hence
any raw refresh value that only matches that user's records subsequently
fails `refresh_access_token` with `InvalidTokenError`; and both the
returned user and the stored user row have the failure counter cleared and
no lockout. -/
theorem claim_C6_cascade (s : Sys) (raw newPw : String) (now pwSalt : Nat)
    (s2 : Sys) (user : UserRec)
    (hreset : reset_password s raw newPw now pwSalt = (s2, .ok user)) :
    (∀ t ∈ s2.refreshTokens, t.userId = user.id → t.isRevoked = true) ∧
    (∀ (raw2 : String) (now2 : Nat) (jti : String),
       (∀ t ∈ s2.refreshTokens,
         verify_password raw2 t.tokenHash = true → t.userId = user.id) →
       refresh_access_token s2 raw2 now2 jti
         = .error (.invalidToken "Invalid refresh token")) ∧
    user.failedLoginAttempts = 0 ∧ user.lockedUntil = none ∧
    (∀ v ∈ s2.users, v.id = user.id →
      v.failedLoginAttempts = 0 ∧ v.lockedUntil = none) := by
  simp only [reset_password] at hreset
  split at hreset
  · simp at hreset
  · split at hreset
    · simp at hreset
    · rename_i mt hmt
      split at hreset
      · simp at hreset
      · rename_i user0 huser0
        split at hreset
        · simp at hreset
        · rename_i newHash hhash
          rw [Prod.mk.injEq] at hreset
          obtain ⟨hs2, hok⟩ := hreset
          have husr := Except.ok.inj hok
          subst hs2
          have hid : user.id = user0.id := by
            rw [← husr]
            rfl
          refine ⟨?_, ?_, ?_, ?_, ?_⟩
          · intro t ht htid
            exact logout_all_revokes _ user0.id now t ht (hid ▸ htid)
          · intro raw2 now2 jti hmatch
            apply refresh_invalid_of_all_matching_revoked
            intro t ht hp
            exact logout_all_revokes _ user0.id now t ht (hid ▸ hmatch t ht hp)
          · rw [← husr]
            rfl
          · rw [← husr]
            rfl
          · intro v hv hvid
            simp only [logout_all_devices, updateUser, resetUser] at hv
            rcases List.mem_map.mp hv with ⟨w, hw, rfl⟩
            by_cases hc : (w.id == user0.id) = true
            · rw [if_pos hc]
              constructor
              · rfl
              · rfl
            · rw [if_neg hc] at hvid ⊢
              rw [hid] at hvid
              exact absurd (by simp [hvid] : (w.id == user0.id) = true) hc

/-- Store holding `U1`, one live refresh token (raw `rt1raw`) and one
unconsumed reset token (raw `rsttok`). -/
def SReset : Sys :=
  { S0 with
    users := [U1]
    refreshTokens := [{ id := 1, userId := 1, tokenHash := { salt := 2, pw := "rt1raw" }
                        tokenPrefix8 := none, expiresAt := 1000, revokedAt := none
                        deviceInfo := none, isRevoked := false }]
    resetTokens := [{ id := 1, userId := 1, tokenHash := { salt := 3, pw := "rsttok" }
                      tokenPrefix8 := none, expiresAt := 1000, usedAt := none }] }

/-- The user returned by the successful reset on `SReset`. -/
def UReset : UserRec := resetUser U1 { salt := 7, pw := "N3w!Passw" }

/-- Witness for C6: after resetting `U1`'s password via `rsttok`, the
refresh token issued before the reset fails `refresh_access_token`. -/
theorem claim_C6_witness :
    refresh_access_token (reset_password SReset "rsttok" "N3w!Passw" 10 7).1
        "rt1raw" 20 "j2"
      = .error (.invalidToken "Invalid refresh token") :=
  (claim_C6_cascade SReset "rsttok" "N3w!Passw" 10 7
      (reset_password SReset "rsttok" "N3w!Passw" 10 7).1 UReset (by decide)).2.1
    "rt1raw" 20 "j2" (by decide)

/-! ## C10 — the blacklist is never populated -/

/-- Membership form of `blacklistFree`. -/
theorem blacklistFree_iff (c : Cache) :
    blacklistFree c = true ↔ ∀ e ∈ c.entries, isBlacklistKey e.1 = false := by
  unfold blacklistFree
  simp [List.all_eq_true]

/-- Writing a non-blacklist key preserves blacklist-freedom. -/
theorem blacklistFree_redis_set (c : Cache) (k : CacheKey) (v : CacheVal)
    (hk : isBlacklistKey k = false) (h : blacklistFree c = true) :
    blacklistFree (redis_set c k v) = true := by
  rw [blacklistFree_iff] at h ⊢
  unfold redis_set
  split
  · exact h
  · intro e he
    rcases List.mem_cons.mp he with he1 | he2
    · rw [he1]
      exact hk
    · exact h e (List.mem_filter.mp he2).1

/-- Deleting any key preserves blacklist-freedom. -/
theorem blacklistFree_redis_delete (c : Cache) (k : CacheKey)
    (h : blacklistFree c = true) :
    blacklistFree (redis_delete c k) = true := by
  rw [blacklistFree_iff] at h ⊢
  unfold redis_delete
  split
  · exact h
  · intro e he
    exact h e (List.mem_filter.mp he).1

/-- The refresh-token cache invalidation fold of `logout_all_devices`
preserves blacklist-freedom. -/
theorem blacklistFree_foldl_inval (l : List RefreshTokenRec) (c : Cache)
    (h : blacklistFree c = true) :
    blacklistFree (l.foldl
      (fun c t => AuthCache_invalidate_refresh_token c t.tokenHash) c) = true := by
  induction l generalizing c with
  | nil => exact h
  | cons t l ih =>
    rw [List.foldl_cons]
    exact ih _ (blacklistFree_redis_delete _ _ h)

/-- `assign_permission_to_role` never touches the cache. -/
theorem aptr_cache (st : Sys) (r p : Nat) :
    ((assign_permission_to_role st r p).1).cache = st.cache := by
  unfold assign_permission_to_role
  split
  · rfl
  · split
    · rfl
    · split
      · rfl
      · rfl

/-- The permission-link fold of `create_role` never touches the cache. -/
theorem foldl_aptr_cache (pids : List Nat) (st : Sys) (r : Nat) :
    (pids.foldl (fun acc pid => (assign_permission_to_role acc r pid).1) st).cache
      = st.cache := by
  induction pids generalizing st with
  | nil => rfl
  | cons p ps ih =>
    rw [List.foldl_cons, ih, aptr_cache]

/-- No operation of the codebase writes a blacklist entry: every cache write
along every code path uses a user, permission or refresh-token key, and the
one call site that was meant to blacklist (the logout endpoint) dies in a
`TypeError` before reaching `AuthCache.blacklist_token`. -/
theorem applyOp_blacklistFree (s : Sys) (o : Op) (h : blacklistFree s.cache = true) :
    blacklistFree (applyOp s o).cache = true := by
  cases o <;>
    simp only [applyOp, register, login, logout_endpoint, call_logout_method, logout,
      logout_all_devices, request_password_reset, reset_password,
      request_email_verification, verify_email, assign_role, revoke_role,
      revoke_all_roles, create_role,
      revoke_permission_from_role, set_role_permissions, delete_role,
      get_current_user, require_permission_dep] <;>
    repeat' split
  all_goals
    first
      | exact h
      | exact blacklistFree_redis_set _ _ _ rfl h
      | exact blacklistFree_redis_set _ _ _ rfl (blacklistFree_redis_delete _ _ h)
      | exact blacklistFree_redis_delete _ _ (blacklistFree_foldl_inval _ _ h)
      | (rw [aptr_cache]; exact h)
      | (rw [foldl_aptr_cache]; exact h)
      | simp_all [logout_endpoint_kwargs, logout_accepted_kwargs]

/-- Blacklist-freedom makes every blacklist lookup miss. -/
theorem is_token_blacklisted_false (c : Cache) (h : blacklistFree c = true)
    (jti : String) : is_token_blacklisted c jti = false := by
  rw [blacklistFree_iff] at h
  unfold is_token_blacklisted redis_exists
  split
  · rfl
  · rw [List.any_eq_false]
    intro e he
    intro hbe
    have hk := h e he
    have : e.1 = CacheKey.tokenBlacklist jti := by
      simpa using hbe
    rw [this] at hk
    exact Bool.true_eq_false.mp hk

/-- C10: in every state reachable by the operations of the codebase the
access-token blacklist is empty — no code path calls
`AuthCache.blacklist_token` (the logout endpoint's attempt passes an
`access_token_jti` keyword that `AuthService.logout` does not accept,
raising a swallowed `TypeError`) — so the revoked-token rejection branch of
`verify_token` is unreachable and `verify_token` accepts every well-signed,
unexpired access token. -/
theorem claim_C10_blacklist_unreachable (s : Sys) (h : Reachable s) :
    blacklistFree s.cache = true ∧
    ∀ (tok : Jwt) (claims : AccessClaims) (now : Nat),
      jwt_decode tok now = .ok claims →
      verify_token s.cache tok now = .ok claims := by
  have hbf : blacklistFree s.cache = true := by
    induction h with
    | init s hs => exact hs
    | step s o _ ih => exact applyOp_blacklistFree s o ih
  refine ⟨hbf, fun tok claims now hdec => ?_⟩
  unfold verify_token
  rw [hdec]
  simp [is_token_blacklisted_false s.cache hbf]

/-- Witness for C10 at a state reached by one operation from the empty
store: the well-signed unexpired token `C1tok` is accepted. -/
theorem claim_C10_witness :
    verify_token (applyOp S0 (.opLogoutEndpoint "sometoken" 3)).cache C1tok 0
      = .ok C1claims :=
  (claim_C10_blacklist_unreachable (applyOp S0 (.opLogoutEndpoint "sometoken" 3))
      (Reachable.step S0 (.opLogoutEndpoint "sometoken" 3)
        (Reachable.init S0 rfl))).2 C1tok C1claims 0 rfl

end Volga
